import Mathlib

/-!
Shallow embedding of the pgdoctor health-check core (Rust) in Lean 4.

Conventions used throughout:
* Rust `i64` / `i32` values are modelled as `Int`; the string parsers
  (`parseI64`, `parseI32`) reproduce Rust's `str::parse` including its
  range check, so out-of-range literals fail to parse exactly as in Rust,
  and `i64` multiplications that can overflow are reduced into the signed
  64-bit range with `wrapI64` (release-mode wrapping semantics).
* Rust's truncating integer division (`/` on `i64`) is `Int.tdiv`.
* `HashMap<String, V>::get` is modelled as a lookup function
  `String → Option V`.
* Floating-point computations (f64 parsing, f64 formatting, `log2`) are
  not reproduced bit-for-bit; where a validator merely forwards such a
  value into a message string, the formatting function is taken as a
  parameter of the embedding, and `f64` fields that feed only order
  comparisons are modelled as `ℚ`.
-/

/-- Severity of a validation outcome; `src/checks/mod.rs` `CheckStatus`. -/
inductive CheckStatus where
  | Ok
  | Warn
  | Critical
deriving DecidableEq, Repr

/-- A single named validation outcome; `src/checks/mod.rs` `ValidationResult`. -/
structure ValidationResult where
  name : String
  status : CheckStatus
  message : String
deriving DecidableEq, Repr

/-- Per-check result container; `src/checks/mod.rs` `CheckResult`. -/
structure CheckResult where
  check_id : String
  check_name : String
  category : String
  validations : List ValidationResult
deriving Repr

/-- Embeds `CheckResult::overall_status` (src/checks/mod.rs lines 63-76):
Critical if any validation is Critical, else Warn if any is Warn, else Ok. -/
def CheckResult.overall_status (r : CheckResult) : CheckStatus :=
  let has_critical := r.validations.any (fun v => v.status = CheckStatus.Critical)
  let has_warn := r.validations.any (fun v => v.status = CheckStatus.Warn)
  if has_critical then CheckStatus.Critical
  else if has_warn then CheckStatus.Warn
  else CheckStatus.Ok

/-- Rank of a severity in the order Ok < Warn < Critical (spec-side order). -/
def CheckStatus.rank : CheckStatus → Nat
  | CheckStatus.Ok => 0
  | CheckStatus.Warn => 1
  | CheckStatus.Critical => 2

/-- Maximum of two severities under the order Ok < Warn < Critical
(spec-side definition used to compare against the code's aggregation). -/
def CheckStatus.max (a b : CheckStatus) : CheckStatus :=
  if a.rank ≤ b.rank then b else a

/-- Modelled from the spec: the overall severity as the maximum severity
across the validations, or Ok for the empty list (spec section 3). -/
def specOverallSeverity (vs : List ValidationResult) : CheckStatus :=
  vs.foldr (fun v acc => CheckStatus.max v.status acc) CheckStatus.Ok

/-- Selection configuration of the `run` subcommand; `src/cli.rs` `RunArgs`
(the three optional comma-separated lists). -/
structure RunArgs where
  includeIds : Option (List String)
  excludeIds : Option (List String)
  categories : Option (List String)

/-- Embeds `RunArgs::should_run_check` (src/cli.rs lines 42-65).  The Rust
original is a sequence of early returns; each early-return guard becomes one
conjunct here. -/
def RunArgs.should_run_check (args : RunArgs) (check_id : String) (category : String) : Bool :=
  (match args.includeIds with
   | some inc => inc.contains check_id
   | none => true)
  && (match args.excludeIds with
   | some exc => !(exc.contains check_id)
   | none => true)
  && (match args.categories with
   | some cats => cats.contains category
   | none => true)

/-- Accumulates the value of a run of ASCII decimal digits; fails on the
first non-digit character.  Helper for modelling Rust's `str::parse`. -/
def parseDigitsAux : List Char → Nat → Option Nat
  | [], acc => some acc
  | c :: cs, acc =>
    if c.isDigit then parseDigitsAux cs (acc * 10 + (c.toNat - 48)) else none

/-- Parses a nonempty all-digit character list as a natural number
(Rust digit-run parsing: at least one digit, digits only). -/
def parseNatDigits : List Char → Option Nat
  | [] => none
  | cs => parseDigitsAux cs 0

/-- Models Rust `str::parse::<i64>`: an optional sign followed by one or
more ASCII digits, rejecting values outside the `i64` range. -/
def parseI64 (s : String) : Option Int :=
  match s.data with
  | '+' :: rest =>
    (parseNatDigits rest).bind fun n =>
      if n ≤ 2 ^ 63 - 1 then some (n : Int) else none
  | '-' :: rest =>
    (parseNatDigits rest).bind fun n =>
      if n ≤ 2 ^ 63 then some (-(n : Int)) else none
  | cs =>
    (parseNatDigits cs).bind fun n =>
      if n ≤ 2 ^ 63 - 1 then some (n : Int) else none

/-- Models Rust `str::parse::<i32>`: as `parseI64` but with `i32` bounds. -/
def parseI32 (s : String) : Option Int :=
  match s.data with
  | '+' :: rest =>
    (parseNatDigits rest).bind fun n =>
      if n ≤ 2 ^ 31 - 1 then some (n : Int) else none
  | '-' :: rest =>
    (parseNatDigits rest).bind fun n =>
      if n ≤ 2 ^ 31 then some (-(n : Int)) else none
  | cs =>
    (parseNatDigits cs).bind fun n =>
      if n ≤ 2 ^ 31 - 1 then some (n : Int) else none

/-- Splitting on whitespace with an accumulator for the current token
(kept reversed).  Helper for `splitWhitespace`. -/
def splitWsAux : List Char → List Char → List (List Char)
  | [], [] => []
  | [], cur => [cur.reverse]
  | c :: cs, cur =>
    if c.isWhitespace then
      match cur with
      | [] => splitWsAux cs []
      | _ => cur.reverse :: splitWsAux cs []
    else splitWsAux cs (c :: cur)

/-- Models Rust `str::split_whitespace`: maximal nonempty runs of
non-whitespace characters, in order (ASCII whitespace; the version strings
involved contain no exotic Unicode whitespace). -/
def splitWhitespace (s : String) : List (List Char) :=
  splitWsAux s.data []

namespace VersionCheck

/-- Embeds `VersionCheck::parse_version` (src/checks/version/check.rs lines
13-21): second whitespace token, substring before the first dot, parsed as
`i32`.  Rust's `split( dot ).next()` on a dot-free token yields the whole
token, i.e. `takeWhile`. -/
def parse_version (version_string : String) : Option Int :=
  match (splitWhitespace version_string).get? 1 with
  | none => none
  | some tok => parseI32 (String.mk (tok.takeWhile (fun c => c ≠ '.')))

/-- Embeds `VersionCheck::validate_version` (src/checks/version/check.rs
lines 23-63). -/
def validate_version (version_string : String) : List ValidationResult :=
  match parse_version version_string with
  | some version =>
    if version < 10 then
      [{ name := "version_check", status := CheckStatus.Critical,
         message := "PostgreSQL version " ++ toString version ++
           " is end-of-life and unsupported. Please upgrade immediately." }]
    else if version < 12 then
      [{ name := "version_check", status := CheckStatus.Warn,
         message := "PostgreSQL version " ++ toString version ++
           " is approaching end-of-life. Consider upgrading." }]
    else
      [{ name := "version_check", status := CheckStatus.Ok,
         message := "PostgreSQL version " ++ toString version ++ " is supported." }]
  | none =>
    [{ name := "version_check", status := CheckStatus.Warn,
       message := "Could not parse version from: " ++ version_string }]

end VersionCheck

namespace TableSizesCheck

/-- Warn threshold of the table-size check, 10 GiB
(src/checks/table_sizes/check.rs line 35). -/
def WARN_THRESHOLD : Int := 10 * 1024 * 1024 * 1024

/-- Critical threshold of the table-size check, 50 GiB
(src/checks/table_sizes/check.rs line 36). -/
def CRITICAL_THRESHOLD : Int := 50 * 1024 * 1024 * 1024

/-- Per-table classification step of the loop in
`TableSizesCheck::validate_tables` (the loop pushes at most one validation
per table; `format_bytes` is floating-point formatting, taken as the
parameter `fmt`). -/
def classifyTable (fmt : Int → String) : String × String × Int → Option ValidationResult
  | (schema, table, size) =>
    if size ≥ CRITICAL_THRESHOLD then
      some { name := "table_size_" ++ schema ++ "." ++ table,
             status := CheckStatus.Critical,
             message := "Table " ++ schema ++ "." ++ table ++ " is very large: " ++
               fmt size ++ ". Consider partitioning or archiving." }
    else if size ≥ WARN_THRESHOLD then
      some { name := "table_size_" ++ schema ++ "." ++ table,
             status := CheckStatus.Warn,
             message := "Table " ++ schema ++ "." ++ table ++ " is large: " ++
               fmt size ++ ". Monitor growth and consider optimization." }
    else
      none

/-- Embeds `TableSizesCheck::validate_tables`
(src/checks/table_sizes/check.rs lines 32-93).  The Rust push-loop over
tables is `List.filterMap classifyTable`. -/
def validate_tables (fmt : Int → String) (tables : List (String × String × Int)) :
    List ValidationResult :=
  if tables.isEmpty then
    [{ name := "table_count", status := CheckStatus.Ok,
       message := "No tables found in the database." }]
  else
    let total_size : Int := (tables.map (fun t => t.2.2)).sum
    let header : ValidationResult :=
      { name := "total_size", status := CheckStatus.Ok,
        message := "Total database size: " ++ fmt total_size ++ " across " ++
          toString tables.length ++ " table(s)" }
    let validations := header :: tables.filterMap (classifyTable fmt)
    if validations.length = 1 then
      validations ++ [{ name := "large_tables", status := CheckStatus.Ok,
                        message := "No unusually large tables detected." }]
    else
      validations

end TableSizesCheck

/-- Two's-complement reduction of an integer into the signed 64-bit range
[-2^63, 2^63): the value a Rust `i64` multiplication produces when it
overflows in a release build (a debug build panics instead; on products
that fit in `i64` both builds agree with the mathematical value, and then
`wrapI64` is the identity). -/
def wrapI64 (x : Int) : Int :=
  (x + 2 ^ 63) % 2 ^ 64 - 2 ^ 63

namespace VacuumSettingsCheck

/-- The settings mapping consumed by the vacuum-settings validators:
`HashMap<String,(String,Option<String>)>::get` modelled as a lookup
function from setting name to (raw value, optional unit). -/
def Settings : Type := String → Option (String × Option String)

/-- Embeds `VacuumSettingsCheck::parse_setting_value`
(src/checks/vacuum_settings/check.rs lines 14-26): parse as `i64`, then
convert by the recognized unit; any other unit (or no unit) is identity.
The scaling multiplications are `i64` arithmetic in the source, so each
product is reduced into the signed 64-bit range by `wrapI64` (Rust's
release-mode wrapping; debug builds panic on the overflowing inputs). -/
def parse_setting_value (setting : String) (unit : Option String) : Option Int :=
  match parseI64 setting with
  | none => none
  | some value =>
    match unit with
    | some "kB" => some (wrapI64 (value * 1024))
    | some "MB" => some (wrapI64 (value * 1024 * 1024))
    | some "GB" => some (wrapI64 (value * 1024 * 1024 * 1024))
    | some "ms" => some value
    | some "s" => some (wrapI64 (value * 1000))
    | _ => some value

/-- Embeds `VacuumSettingsCheck::check_autovacuum_scale_factors`
(src/checks/vacuum_settings/check.rs lines 32-84).  Rust's
`parse_float_setting` (an `f64` parse) is the parameter `parseFloat`, its
display formatting the parameter `showQ`, and the `f64` literals `0.1` /
`0.2` are the rationals 1/10 and 2/10.  Each of the two if-let blocks of
the source contributes one appended sublist. -/
def check_autovacuum_scale_factors (parseFloat : String → Option ℚ) (showQ : ℚ → String)
    (settings : Settings) : List ValidationResult :=
  (match settings "autovacuum_analyze_scale_factor" with
   | some (analyze_factor_str, _) =>
     (match parseFloat analyze_factor_str with
      | some analyze_factor =>
        if analyze_factor > 1 / 10 then
          [{ name := "autovacuum_analyze_scale_factor", status := CheckStatus.Warn,
             message := "autovacuum_analyze_scale_factor is " ++ showQ analyze_factor ++
               ". Values > 0.1 may delay ANALYZE on large tables, affecting query planning." }]
        else
          [{ name := "autovacuum_analyze_scale_factor", status := CheckStatus.Ok,
             message := "autovacuum_analyze_scale_factor is " ++ showQ analyze_factor ++
               " (optimal)." }]
      | none => [])
   | none => []) ++
  (match settings "autovacuum_vacuum_scale_factor" with
   | some (vacuum_factor_str, _) =>
     (match parseFloat vacuum_factor_str with
      | some vacuum_factor =>
        if vacuum_factor > 2 / 10 then
          [{ name := "autovacuum_vacuum_scale_factor", status := CheckStatus.Warn,
             message := "autovacuum_vacuum_scale_factor is " ++ showQ vacuum_factor ++
               ". Values > 0.2 may cause bloat in large tables." }]
        else if vacuum_factor > 1 / 10 then
          [{ name := "autovacuum_vacuum_scale_factor", status := CheckStatus.Ok,
             message := "autovacuum_vacuum_scale_factor is " ++ showQ vacuum_factor ++
               " (acceptable)." }]
        else
          [{ name := "autovacuum_vacuum_scale_factor", status := CheckStatus.Ok,
             message := "autovacuum_vacuum_scale_factor is " ++ showQ vacuum_factor ++
               " (optimal)." }]
      | none => [])
   | none => [])

/-- Embeds `VacuumSettingsCheck::check_autovacuum_workers`
(src/checks/vacuum_settings/check.rs lines 86-120). -/
def check_autovacuum_workers (settings : Settings) : List ValidationResult :=
  match settings "autovacuum_max_workers" with
  | some (workers_str, unit) =>
    (match parse_setting_value workers_str unit with
     | some workers =>
       if workers < 3 then
         [{ name := "autovacuum_max_workers", status := CheckStatus.Warn,
            message := "autovacuum_max_workers is " ++ toString workers ++
              ". Consider increasing to at least 3 for better concurrent vacuum performance." }]
       else if workers > 10 then
         [{ name := "autovacuum_max_workers", status := CheckStatus.Warn,
            message := "autovacuum_max_workers is " ++ toString workers ++
              ". Very high values may cause resource contention." }]
       else
         [{ name := "autovacuum_max_workers", status := CheckStatus.Ok,
            message := "autovacuum_max_workers is " ++ toString workers ++ " (optimal)." }]
     | none => [])
  | none => []

/-- Embeds `VacuumSettingsCheck::check_maintenance_work_mem`
(src/checks/vacuum_settings/check.rs lines 122-167).  Rust's `i64`
division truncates toward zero, hence `Int.tdiv`. -/
def check_maintenance_work_mem (settings : Settings) : List ValidationResult :=
  match settings "maintenance_work_mem" with
  | some (mem_str, unit) =>
    (match parse_setting_value mem_str unit with
     | some mem_bytes =>
       let mem_mb := Int.tdiv mem_bytes (1024 * 1024)
       if mem_mb < 64 then
         [{ name := "maintenance_work_mem", status := CheckStatus.Critical,
            message := "maintenance_work_mem is " ++ toString mem_mb ++
              " MB. This is too low and will significantly slow down VACUUM and index creation. Increase to at least 256 MB." }]
       else if mem_mb < 256 then
         [{ name := "maintenance_work_mem", status := CheckStatus.Warn,
            message := "maintenance_work_mem is " ++ toString mem_mb ++
              " MB. Consider increasing to at least 256 MB for better maintenance performance." }]
       else if mem_mb > 2048 then
         [{ name := "maintenance_work_mem", status := CheckStatus.Warn,
            message := "maintenance_work_mem is " ++ toString mem_mb ++
              " MB. Very high values (>2GB) may not provide additional benefits." }]
       else
         [{ name := "maintenance_work_mem", status := CheckStatus.Ok,
            message := "maintenance_work_mem is " ++ toString mem_mb ++ " MB (optimal)." }]
     | none => [])
  | none => []

/-- Embeds `VacuumSettingsCheck::check_vacuum_cost_settings`
(src/checks/vacuum_settings/check.rs lines 169-215); the two if-let
blocks of the source contribute one appended sublist each. -/
def check_vacuum_cost_settings (settings : Settings) : List ValidationResult :=
  (match settings "vacuum_cost_delay" with
   | some (delay_str, unit) =>
     (match parse_setting_value delay_str unit with
      | some delay_ms =>
        if delay_ms > 10 then
          [{ name := "vacuum_cost_delay", status := CheckStatus.Warn,
             message := "vacuum_cost_delay is " ++ toString delay_ms ++
               " ms. High values slow down vacuum. Consider reducing if vacuum is not keeping up." }]
        else
          [{ name := "vacuum_cost_delay", status := CheckStatus.Ok,
             message := "vacuum_cost_delay is " ++ toString delay_ms ++ " ms (acceptable)." }]
      | none => [])
   | none => []) ++
  (match settings "vacuum_cost_limit" with
   | some (limit_str, unit) =>
     (match parse_setting_value limit_str unit with
      | some limit =>
        if limit < 200 then
          [{ name := "vacuum_cost_limit", status := CheckStatus.Warn,
             message := "vacuum_cost_limit is " ++ toString limit ++
               ". Low values throttle vacuum too much. Consider increasing to at least 200." }]
        else
          [{ name := "vacuum_cost_limit", status := CheckStatus.Ok,
             message := "vacuum_cost_limit is " ++ toString limit ++ " (acceptable)." }]
      | none => [])
   | none => [])

/-- Embeds `VacuumSettingsCheck::check_work_mem`
(src/checks/vacuum_settings/check.rs lines 217-253). -/
def check_work_mem (settings : Settings) : List ValidationResult :=
  match settings "work_mem" with
  | some (mem_str, unit) =>
    (match parse_setting_value mem_str unit with
     | some mem_bytes =>
       let mem_mb := Int.tdiv mem_bytes (1024 * 1024)
       if mem_mb < 4 then
         [{ name := "work_mem", status := CheckStatus.Warn,
            message := "work_mem is " ++ toString mem_mb ++
              " MB. This is very low and may cause excessive disk sorts. Consider increasing to at least 4 MB." }]
       else if mem_mb > 1024 then
         [{ name := "work_mem", status := CheckStatus.Warn,
            message := "work_mem is " ++ toString mem_mb ++
              " MB. Very high values can cause memory issues with many concurrent connections. Monitor memory usage carefully." }]
       else
         [{ name := "work_mem", status := CheckStatus.Ok,
            message := "work_mem is " ++ toString mem_mb ++ " MB (acceptable)." }]
     | none => [])
  | none => []

/-- The fallback Ok validation of `VacuumSettingsCheck::validate_settings`
(src/checks/vacuum_settings/check.rs lines 264-270). -/
def fallbackValidation : ValidationResult :=
  { name := "vacuum_settings", status := CheckStatus.Ok,
    message := "All vacuum-related settings are within acceptable ranges." }

/-- Embeds `VacuumSettingsCheck::validate_settings`
(src/checks/vacuum_settings/check.rs lines 255-273): extend with the five
setting evaluators in order, then push the fallback Ok iff nothing was
produced. -/
def validate_settings (parseFloat : String → Option ℚ) (showQ : ℚ → String)
    (settings : Settings) : List ValidationResult :=
  let validations :=
    check_autovacuum_scale_factors parseFloat showQ settings ++
    check_autovacuum_workers settings ++
    check_maintenance_work_mem settings ++
    check_vacuum_cost_settings settings ++
    check_work_mem settings
  if validations.isEmpty then [fallbackValidation] else validations

end VacuumSettingsCheck

/-- Embeds `TableBloatInfo` (src/checks/mod.rs lines 103-112).
`bloat_percentage` is `f64` in the source but is only ever compared with
`60.0`, so it is modelled as `ℚ`; `OffsetDateTime` timestamps are modelled
as integer seconds since the epoch. -/
structure TableBloatInfo where
  schema_name : String
  table_name : String
  table_size : Int
  bloat_size : Int
  bloat_percentage : ℚ
  last_autovacuum : Option Int
  last_autoanalyze : Option Int

namespace TableBloatCheck

/-- Rust `Option::map_or(true, |t| t < five_days_ago)` from
`TableBloatCheck::run`: an absent timestamp is stale, a present one is
stale iff strictly before the cutoff. -/
def isStale (five_days_ago : Int) : Option Int → Bool
  | none => true
  | some t => t < five_days_ago

/-- The validation pushed for a flagged table in `TableBloatCheck::run`
(src/checks/mod.rs lines 236-249); `humanize` stands for
`bytes_to_human_readable`, `pctFmt` for the `{:.2}` float formatting and
`showDate` for `OffsetDateTime::date().to_string()`, all floating-point or
calendar formatting taken as parameters.  The source surrounds the table
id in the message with single-quote characters; those two characters are
elided here. -/
def bloatValidation (humanize : Int → String) (pctFmt : ℚ → String)
    (showDate : Int → String) (info : TableBloatInfo) : ValidationResult :=
  let table_id := info.schema_name ++ "." ++ info.table_name
  { name := table_id,
    status := CheckStatus.Warn,
    message := "Table " ++ table_id ++ " has high bloat (" ++
      pctFmt info.bloat_percentage ++ "%, " ++ humanize info.bloat_size ++
      ") and may need maintenance. Last autovacuum: " ++
      (match info.last_autovacuum with
       | none => "never"
       | some t => showDate t) ++
      ", last autoanalyze: " ++
      (match info.last_autoanalyze with
       | none => "never"
       | some t => showDate t) ++ "." }

/-- Embeds the validation loop of `TableBloatCheck::run`
(src/checks/mod.rs lines 224-259).  `now` is the evaluation time
(`OffsetDateTime::now_utc()`) in seconds, so `Duration::days(5)` is
432000 seconds; the push-loop over the fetched rows is `List.filterMap`. -/
def runValidations (humanize : Int → String) (pctFmt : ℚ → String)
    (showDate : Int → String) (now : Int) (bloat_data : List TableBloatInfo) :
    List ValidationResult :=
  let five_days_ago := now - 5 * 86400
  bloat_data.filterMap fun info =>
    let is_bloated := info.bloat_percentage > 60
    let is_autovacuum_stale := isStale five_days_ago info.last_autovacuum
    let is_autoanalyze_stale := isStale five_days_ago info.last_autoanalyze
    if is_bloated ∧ (is_autovacuum_stale ∨ is_autoanalyze_stale) then
      some (bloatValidation humanize pctFmt showDate info)
    else
      none

end TableBloatCheck

lemma specOverallSeverity_eq_ite (vs : List ValidationResult) :
    specOverallSeverity vs =
      if vs.any (fun v => v.status = CheckStatus.Critical) then CheckStatus.Critical
      else if vs.any (fun v => v.status = CheckStatus.Warn) then CheckStatus.Warn
      else CheckStatus.Ok := by
  induction vs with
  | nil => rfl
  | cons v vs ih =>
    have hcons : specOverallSeverity (v :: vs) =
        CheckStatus.max v.status (specOverallSeverity vs) := rfl
    rw [hcons, ih]
    rcases v with ⟨n, st, m⟩
    cases st <;>
      by_cases h1 : (vs.any fun v => v.status = CheckStatus.Critical) = true <;>
      by_cases h2 : (vs.any fun v => v.status = CheckStatus.Warn) = true <;>
      simp [h1, h2, CheckStatus.max, CheckStatus.rank, List.any_cons]

/-- C1: the overall severity of a CheckResult is Critical iff some
validation is Critical, otherwise Warn iff some validation is Warn,
otherwise Ok; the empty list yields Ok; and the result is exactly the
maximum of the validation severities under the order Ok < Warn < Critical. -/
theorem c1_overall_severity (r : CheckResult) :
    (r.overall_status = CheckStatus.Critical ↔
      ∃ v ∈ r.validations, v.status = CheckStatus.Critical) ∧
    (r.overall_status ≠ CheckStatus.Critical →
      (r.overall_status = CheckStatus.Warn ↔
        ∃ v ∈ r.validations, v.status = CheckStatus.Warn)) ∧
    (r.validations = [] → r.overall_status = CheckStatus.Ok) ∧
    r.overall_status = specOverallSeverity r.validations := by
  obtain ⟨ci, cn, cat, vs⟩ := r
  have hA : (vs.any fun v => v.status = CheckStatus.Critical) = true ↔
      ∃ v ∈ vs, v.status = CheckStatus.Critical := by simp
  have hB : (vs.any fun v => v.status = CheckStatus.Warn) = true ↔
      ∃ v ∈ vs, v.status = CheckStatus.Warn := by simp
  have hover : (CheckResult.mk ci cn cat vs).overall_status =
      if vs.any (fun v => v.status = CheckStatus.Critical) then CheckStatus.Critical
      else if vs.any (fun v => v.status = CheckStatus.Warn) then CheckStatus.Warn
      else CheckStatus.Ok := rfl
  rw [hover, specOverallSeverity_eq_ite]
  cases h1 : (vs.any fun v => v.status = CheckStatus.Critical) <;>
    cases h2 : (vs.any fun v => v.status = CheckStatus.Warn) <;>
    refine ⟨?_, fun hne => ?_, fun hnil => ?_, ?_⟩ <;>
    simp_all

/-- Witness for C1: on one Warn validation the overall severity is Warn,
and on an empty validation list it is Ok. -/
theorem c1_overall_severity_witness :
    (CheckResult.mk "x" "X" "storage"
      [⟨"a", CheckStatus.Warn, "m"⟩]).overall_status = CheckStatus.Warn ∧
    (CheckResult.mk "y" "Y" "storage" []).overall_status = CheckStatus.Ok := by
  constructor
  · exact ((c1_overall_severity
      (CheckResult.mk "x" "X" "storage" [⟨"a", CheckStatus.Warn, "m"⟩])).2.1
      (by decide)).mpr ⟨⟨"a", CheckStatus.Warn, "m"⟩, by simp, rfl⟩
  · exact (c1_overall_severity (CheckResult.mk "y" "Y" "storage" [])).2.2.1 rfl

/-- C2: the selection predicate holds iff (include absent or id included)
and (exclude absent or id not excluded) and (categories absent or category
allowed); absent constraints never exclude; a present empty include or
category list selects nothing; a present empty exclude list behaves
exactly like an absent one. -/
theorem c2_should_run_check (args : RunArgs) (i c : String) :
    (args.should_run_check i c = true ↔
      ((args.includeIds = none ∨ ∃ l, args.includeIds = some l ∧ i ∈ l) ∧
       (args.excludeIds = none ∨ ∃ l, args.excludeIds = some l ∧ i ∉ l) ∧
       (args.categories = none ∨ ∃ l, args.categories = some l ∧ c ∈ l))) ∧
    (args.includeIds = none → args.excludeIds = none → args.categories = none →
      args.should_run_check i c = true) ∧
    (args.includeIds = some [] → args.should_run_check i c = false) ∧
    (args.categories = some [] → args.should_run_check i c = false) ∧
    (∀ inc cats, RunArgs.should_run_check ⟨inc, some [], cats⟩ i c =
      RunArgs.should_run_check ⟨inc, none, cats⟩ i c) := by
  obtain ⟨inc, exc, cats⟩ := args
  refine ⟨?_, ?_, ?_, ?_, ?_⟩ <;>
    [skip; skip; skip; skip;
     exact fun inc2 cats2 => by
       cases inc2 <;> cases cats2 <;> simp [RunArgs.should_run_check]] <;>
    cases inc <;> cases exc <;> cases cats <;>
    simp [RunArgs.should_run_check, and_assoc] <;>
    (intro h; subst h; simp)

/-- Witness for C2: all constraints absent selects; an empty include list
rejects; an empty category list rejects; an empty exclude list together
with no other constraints still selects. -/
theorem c2_should_run_check_witness :
    RunArgs.should_run_check ⟨none, none, none⟩ "pg_version" "settings" = true ∧
    RunArgs.should_run_check ⟨some [], none, none⟩ "pg_version" "settings" = false ∧
    RunArgs.should_run_check ⟨none, none, some []⟩ "pg_version" "settings" = false ∧
    RunArgs.should_run_check ⟨none, some [], none⟩ "pg_version" "settings" = true := by
  refine ⟨?_, ?_, ?_, ?_⟩
  · exact (c2_should_run_check ⟨none, none, none⟩ "pg_version" "settings").2.1 rfl rfl rfl
  · exact (c2_should_run_check ⟨some [], none, none⟩ "pg_version" "settings").2.2.1 rfl
  · exact (c2_should_run_check ⟨none, none, some []⟩ "pg_version" "settings").2.2.2.1 rfl
  · exact ((c2_should_run_check ⟨none, some [], none⟩ "pg_version" "settings").1).mpr
      (by simp)

/-- C3: the version check parses via second-whitespace-token /
prefix-before-first-dot / integer parse, always emits exactly one
validation named version_check, classifies a parsed major as Critical
below 10, Warn in [10,12), Ok from 12 up, and on any parse failure emits a
Warn whose message contains "Could not parse" and names the input. -/
theorem c3_validate_version (s : String) :
    (∃ v, VersionCheck.validate_version s = [v] ∧ v.name = "version_check") ∧
    (∀ tok, (splitWhitespace s).get? 1 = some tok →
      VersionCheck.parse_version s =
        parseI32 (String.mk (tok.takeWhile (fun ch => ch ≠ '.')))) ∧
    (∀ M, VersionCheck.parse_version s = some M →
      ∃ v, VersionCheck.validate_version s = [v] ∧
        v.status = (if M < 10 then CheckStatus.Critical
                    else if M < 12 then CheckStatus.Warn
                    else CheckStatus.Ok)) ∧
    (VersionCheck.parse_version s = none →
      VersionCheck.validate_version s =
        [{ name := "version_check", status := CheckStatus.Warn,
           message := "Could not parse version from: " ++ s }]) := by
  refine ⟨?_, ?_, ?_, ?_⟩
  · cases h : VersionCheck.parse_version s with
    | none =>
      simp only [VersionCheck.validate_version, h]
      exact ⟨_, rfl, rfl⟩
    | some M =>
      simp only [VersionCheck.validate_version, h]
      by_cases h10 : M < 10
      · rw [if_pos h10]; exact ⟨_, rfl, rfl⟩
      · by_cases h12 : M < 12
        · rw [if_neg h10, if_pos h12]; exact ⟨_, rfl, rfl⟩
        · rw [if_neg h10, if_neg h12]; exact ⟨_, rfl, rfl⟩
  · intro tok htok
    unfold VersionCheck.parse_version
    rw [htok]
  · intro M hM
    simp only [VersionCheck.validate_version, hM]
    by_cases h10 : M < 10
    · rw [if_pos h10]; exact ⟨_, rfl, by simp [h10]⟩
    · by_cases h12 : M < 12
      · rw [if_neg h10, if_pos h12]; exact ⟨_, rfl, by simp [h10, h12]⟩
      · rw [if_neg h10, if_neg h12]; exact ⟨_, rfl, by simp [h10, h12]⟩
  · intro hnone
    simp only [VersionCheck.validate_version, hnone]

/-- Witness for C3: concrete version strings for each classification and
for the unparseable case. -/
theorem c3_validate_version_witness :
    (∃ v, VersionCheck.validate_version "PostgreSQL 9.6.24" = [v] ∧
      v.status = CheckStatus.Critical) ∧
    (∃ v, VersionCheck.validate_version "PostgreSQL 11.5" = [v] ∧
      v.status = CheckStatus.Warn) ∧
    (∃ v, VersionCheck.validate_version "PostgreSQL 15.3 on x86_64-pc-linux-gnu" = [v] ∧
      v.status = CheckStatus.Ok) ∧
    VersionCheck.validate_version "Invalid version string" =
      [{ name := "version_check", status := CheckStatus.Warn,
         message := "Could not parse version from: Invalid version string" }] := by
  refine ⟨?_, ?_, ?_, ?_⟩
  · obtain ⟨v, hv, hs⟩ := (c3_validate_version "PostgreSQL 9.6.24").2.2.1 9 (by decide)
    exact ⟨v, hv, by rw [hs]; decide⟩
  · obtain ⟨v, hv, hs⟩ := (c3_validate_version "PostgreSQL 11.5").2.2.1 11 (by decide)
    exact ⟨v, hv, by rw [hs]; decide⟩
  · obtain ⟨v, hv, hs⟩ :=
      (c3_validate_version "PostgreSQL 15.3 on x86_64-pc-linux-gnu").2.2.1 15 (by decide)
    exact ⟨v, hv, by rw [hs]; decide⟩
  · have h := (c3_validate_version "Invalid version string").2.2.2 (by decide)
    simpa using h

/-- C4: on an empty table list the table-size validator emits exactly the
single Ok "no tables found" validation; otherwise it emits the Ok total
summary first, then per table in input order a Critical validation iff the
size is at least 50 GiB and a Warn validation iff the size is in
[10 GiB, 50 GiB) (none below 10 GiB), with one trailing Ok validation
exactly when no per-table validation was emitted. -/
theorem c4_validate_tables (fmt : Int → String) (tables : List (String × String × Int)) :
    (tables = [] →
      TableSizesCheck.validate_tables fmt tables =
        [{ name := "table_count", status := CheckStatus.Ok,
           message := "No tables found in the database." }]) ∧
    (tables ≠ [] →
      TableSizesCheck.validate_tables fmt tables =
        { name := "total_size", status := CheckStatus.Ok,
          message := "Total database size: " ++ fmt ((tables.map fun t => t.2.2).sum) ++
            " across " ++ toString tables.length ++ " table(s)" } ::
        (tables.filterMap (TableSizesCheck.classifyTable fmt) ++
          (if tables.filterMap (TableSizesCheck.classifyTable fmt) = [] then
            [{ name := "large_tables", status := CheckStatus.Ok,
               message := "No unusually large tables detected." }]
          else []))) ∧
    (∀ sch tbl sz,
      (TableSizesCheck.classifyTable fmt (sch, tbl, sz) = none ↔
        sz < 10 * 1024 * 1024 * 1024) ∧
      (∀ v, TableSizesCheck.classifyTable fmt (sch, tbl, sz) = some v →
        (v.status = CheckStatus.Critical ↔ 50 * 1024 * 1024 * 1024 ≤ sz) ∧
        (v.status = CheckStatus.Warn ↔
          10 * 1024 * 1024 * 1024 ≤ sz ∧ sz < 50 * 1024 * 1024 * 1024))) := by
  refine ⟨?_, ?_, ?_⟩
  · intro h
    subst h
    rfl
  · intro h
    obtain ⟨t, ts, rfl⟩ : ∃ t ts, tables = t :: ts := by
      cases tables with
      | nil => exact absurd rfl h
      | cons t ts => exact ⟨t, ts, rfl⟩
    simp only [TableSizesCheck.validate_tables, List.isEmpty_cons, Bool.false_eq_true,
      if_false]
    by_cases hper : (t :: ts).filterMap (TableSizesCheck.classifyTable fmt) = []
    · simp [hper]
    · simp only [hper, if_false, List.append_nil, List.length_cons]
      rw [if_neg]
      intro hlen
      exact hper (List.length_eq_zero.mp (Nat.succ_injective hlen))
  · intro sch tbl sz
    refine ⟨?_, ?_⟩
    · simp only [TableSizesCheck.classifyTable, TableSizesCheck.CRITICAL_THRESHOLD,
        TableSizesCheck.WARN_THRESHOLD]
      split
      · rename_i hc
        exact iff_of_false (by simp) (by omega)
      · split
        · rename_i hc hw
          exact iff_of_false (by simp) (by omega)
        · rename_i hc hw
          exact iff_of_true rfl (by omega)
    · intro v hv
      simp only [TableSizesCheck.classifyTable, TableSizesCheck.CRITICAL_THRESHOLD,
        TableSizesCheck.WARN_THRESHOLD] at hv
      split at hv
      · rename_i hc
        have hveq := (Option.some.inj hv).symm
        subst hveq
        exact ⟨iff_of_true rfl (by omega), iff_of_false (by simp) (by omega)⟩
      · split at hv
        · rename_i hc hw
          have hveq := (Option.some.inj hv).symm
          subst hveq
          exact ⟨iff_of_false (by simp) (by omega), iff_of_true rfl (by omega)⟩
        · exact absurd hv (by simp)

/-- Witness for C4: no tables, one 15 GiB table, one 60 GiB table, and one
small table (the fmt parameter is irrelevant to the shape). -/
theorem c4_validate_tables_witness :
    TableSizesCheck.validate_tables (fun _ => "sz") [] =
      [{ name := "table_count", status := CheckStatus.Ok,
         message := "No tables found in the database." }] ∧
    (TableSizesCheck.validate_tables (fun _ => "sz")
      [("public", "t1", 15 * 1024 * 1024 * 1024)]).map ValidationResult.status =
      [CheckStatus.Ok, CheckStatus.Warn] ∧
    (TableSizesCheck.validate_tables (fun _ => "sz")
      [("public", "t1", 60 * 1024 * 1024 * 1024)]).map ValidationResult.status =
      [CheckStatus.Ok, CheckStatus.Critical] ∧
    (TableSizesCheck.validate_tables (fun _ => "sz")
      [("public", "t1", 5)]).map ValidationResult.name =
      ["total_size", "large_tables"] := by
  refine ⟨(c4_validate_tables (fun _ => "sz") []).1 rfl, ?_, ?_, ?_⟩
  · rw [(c4_validate_tables (fun _ => "sz")
      [("public", "t1", 15 * 1024 * 1024 * 1024)]).2.1 (by simp)]
    rfl
  · rw [(c4_validate_tables (fun _ => "sz")
      [("public", "t1", 60 * 1024 * 1024 * 1024)]).2.1 (by simp)]
    rfl
  · rw [(c4_validate_tables (fun _ => "sz") [("public", "t1", 5)]).2.1 (by simp)]
    rfl

lemma wrapI64_eq_self (x : Int) (h1 : -(2 ^ 63) ≤ x) (h2 : x < 2 ^ 63) :
    wrapI64 x = x := by
  have e63 : (2 : Int) ^ 63 = 9223372036854775808 := by norm_num
  have e64 : (2 : Int) ^ 64 = 18446744073709551616 := by norm_num
  unfold wrapI64
  rw [e63, e64] at *
  omega

/-- Counterexample for C5: at the i64-range boundary the code wraps.  The
setting string for 2^63 - 1 parses, but converting it with unit kB
returns the two's-complement wrapped product -1024, not
(2^63 - 1) * 1024 as the claim asserts for every parsed value. -/
theorem c5_parse_setting_value_counterexample :
    parseI64 "9223372036854775807" = some 9223372036854775807 ∧
    VacuumSettingsCheck.parse_setting_value "9223372036854775807" (some "kB") =
      some (-1024) ∧
    (9223372036854775807 : Int) * 1024 ≠ -1024 := by
  refine ⟨by decide, by decide, by decide⟩

/-- C5 (amended): for a setting string parsing as integer v the unit
conversion is kB to v*1024, MB to v*1024^2, GB to v*1024^3, ms to v, s to
v*1000 and no unit to v, whenever the scaled product lies in the signed
64-bit range (on overflow the release-mode i64 multiply wraps instead,
see the counterexample; debug builds panic); a non-integer setting string
yields no value; and the concrete conversions of the spec hold. -/
theorem c5_parse_setting_value (s : String) (v : Int) :
    (parseI64 s = some v →
      ((-(2 ^ 63) ≤ v * 1024 → v * 1024 < 2 ^ 63 →
        VacuumSettingsCheck.parse_setting_value s (some "kB") = some (v * 1024)) ∧
       (-(2 ^ 63) ≤ v * 1024 ^ 2 → v * 1024 ^ 2 < 2 ^ 63 →
        VacuumSettingsCheck.parse_setting_value s (some "MB") = some (v * 1024 ^ 2)) ∧
       (-(2 ^ 63) ≤ v * 1024 ^ 3 → v * 1024 ^ 3 < 2 ^ 63 →
        VacuumSettingsCheck.parse_setting_value s (some "GB") = some (v * 1024 ^ 3)) ∧
       VacuumSettingsCheck.parse_setting_value s (some "ms") = some v ∧
       (-(2 ^ 63) ≤ v * 1000 → v * 1000 < 2 ^ 63 →
        VacuumSettingsCheck.parse_setting_value s (some "s") = some (v * 1000)) ∧
       VacuumSettingsCheck.parse_setting_value s none = some v)) ∧
    (parseI64 s = none →
      ∀ u, VacuumSettingsCheck.parse_setting_value s u = none) ∧
    VacuumSettingsCheck.parse_setting_value "64" (some "kB") = some 65536 ∧
    VacuumSettingsCheck.parse_setting_value "1" (some "MB") = some 1048576 ∧
    VacuumSettingsCheck.parse_setting_value "5" (some "s") = some 5000 := by
  refine ⟨?_, ?_, by decide, by decide, by decide⟩
  · intro h
    refine ⟨?_, ?_, ?_, ?_, ?_, ?_⟩
    · intro h1 h2
      simp only [VacuumSettingsCheck.parse_setting_value, h]
      rw [wrapI64_eq_self _ h1 h2]
    · intro h1 h2
      simp only [VacuumSettingsCheck.parse_setting_value, h]
      rw [(by ring : v * 1024 * 1024 = v * 1024 ^ 2), wrapI64_eq_self _ h1 h2]
    · intro h1 h2
      simp only [VacuumSettingsCheck.parse_setting_value, h]
      rw [(by ring : v * 1024 * 1024 * 1024 = v * 1024 ^ 3), wrapI64_eq_self _ h1 h2]
    · simp only [VacuumSettingsCheck.parse_setting_value, h]
    · intro h1 h2
      simp only [VacuumSettingsCheck.parse_setting_value, h]
      rw [wrapI64_eq_self _ h1 h2]
    · simp only [VacuumSettingsCheck.parse_setting_value, h]
  · intro h u
    simp only [VacuumSettingsCheck.parse_setting_value, h]

/-- Witness for C5: the hypotheses discharged at the strings "7" (which
parses, with all scaled products inside the i64 range) and "x" (which
does not parse). -/
theorem c5_parse_setting_value_witness :
    VacuumSettingsCheck.parse_setting_value "7" (some "kB") = some 7168 ∧
    VacuumSettingsCheck.parse_setting_value "7" (some "s") = some 7000 ∧
    VacuumSettingsCheck.parse_setting_value "x" (some "kB") = none := by
  refine ⟨?_, ?_, ?_⟩
  · exact ((c5_parse_setting_value "7" 7).1 (by decide)).1 (by norm_num) (by norm_num)
  · exact ((c5_parse_setting_value "7" 7).1 (by decide)).2.2.2.2.1
      (by norm_num) (by norm_num)
  · exact (c5_parse_setting_value "x" 0).2.1 (by decide) (some "kB")

/-- C10: an integer-valued setting with any unit other than kB, MB, GB, ms
and s is returned unchanged by the parser - an unrecognized unit is treated
as dimensionless, never as a failure. -/
theorem c10_unrecognized_unit (s : String) (v : Int) (u : String)
    (hp : parseI64 s = some v)
    (hu : u ∉ (["kB", "MB", "GB", "ms", "s"] : List String)) :
    VacuumSettingsCheck.parse_setting_value s (some u) = some v := by
  simp only [VacuumSettingsCheck.parse_setting_value, hp]
  simp only [List.mem_cons, List.not_mem_nil, or_false, not_or] at hu
  obtain ⟨h1, h2, h3, h4, h5⟩ := hu
  split
  · rename_i heq; cases heq; exact absurd rfl h1
  · rename_i heq; cases heq; exact absurd rfl h2
  · rename_i heq; cases heq; exact absurd rfl h3
  · rename_i heq; cases heq; exact absurd rfl h4
  · rename_i heq; cases heq; exact absurd rfl h5
  · rfl

/-- Witness for C10: the unrecognized units "8kB", "B" and "min" are all
identity conversions. -/
theorem c10_unrecognized_unit_witness :
    VacuumSettingsCheck.parse_setting_value "8" (some "8kB") = some 8 ∧
    VacuumSettingsCheck.parse_setting_value "8" (some "B") = some 8 ∧
    VacuumSettingsCheck.parse_setting_value "8" (some "min") = some 8 := by
  refine ⟨?_, ?_, ?_⟩
  · exact c10_unrecognized_unit "8" 8 "8kB" (by decide) (by decide)
  · exact c10_unrecognized_unit "8" 8 "B" (by decide) (by decide)
  · exact c10_unrecognized_unit "8" 8 "min" (by decide) (by decide)

/-- C6: for a present maintenance_work_mem setting whose value parses to b
bytes, exactly one validation is emitted, with severity Critical below
64 MiB, Warn in [64,256) MiB, Ok in [256,2048] MiB and Warn above
2048 MiB, where the MiB count is the floor of b / 2^20 (the code divides
truncating toward zero, which agrees with the floor on all nonnegative
byte counts and yields the same Critical severity on negative ones). -/
theorem c6_check_maintenance_work_mem (settings : VacuumSettingsCheck.Settings)
    (str : String) (u : Option String) (b : Int)
    (hs : settings "maintenance_work_mem" = some (str, u))
    (hp : VacuumSettingsCheck.parse_setting_value str u = some b) :
    ∃ v, VacuumSettingsCheck.check_maintenance_work_mem settings = [v] ∧
      v.name = "maintenance_work_mem" ∧
      v.status =
        (if Int.fdiv b (1024 * 1024) < 64 then CheckStatus.Critical
         else if Int.fdiv b (1024 * 1024) < 256 then CheckStatus.Warn
         else if Int.fdiv b (1024 * 1024) ≤ 2048 then CheckStatus.Ok
         else CheckStatus.Warn) := by
  simp only [VacuumSettingsCheck.check_maintenance_work_mem, hs, hp]
  rcases le_or_lt 0 b with hb | hb
  · rw [Int.fdiv_eq_tdiv hb (by norm_num)]
    by_cases h64 : Int.tdiv b (1024 * 1024) < 64
    · rw [if_pos h64, if_pos h64]
      exact ⟨_, rfl, rfl, rfl⟩
    · by_cases h256 : Int.tdiv b (1024 * 1024) < 256
      · rw [if_neg h64, if_neg h64, if_pos h256, if_pos h256]
        exact ⟨_, rfl, rfl, rfl⟩
      · by_cases h2048 : Int.tdiv b (1024 * 1024) > 2048
        · rw [if_neg h64, if_neg h64, if_pos h2048, if_neg h256, if_neg h256,
            if_neg (by omega)]
          exact ⟨_, rfl, rfl, rfl⟩
        · rw [if_neg h64, if_neg h64, if_neg h256, if_neg h256, if_neg h2048,
            if_pos (by omega)]
          exact ⟨_, rfl, rfl, rfl⟩
  · have htd : Int.tdiv b (1024 * 1024) = -((-b).tdiv (1024 * 1024)) := by
      rw [← Int.neg_tdiv, neg_neg]
    have htle : Int.tdiv b (1024 * 1024) < 64 := by
      have h0 : 0 ≤ (-b).tdiv (1024 * 1024) :=
        Int.tdiv_nonneg (by omega) (by norm_num)
      omega
    have hfd : Int.fdiv b (1024 * 1024) < 64 := by
      rw [Int.fdiv_eq_ediv b (by norm_num)]
      have hneg : b / (1024 * 1024) < 0 := Int.ediv_neg' hb (by norm_num)
      omega
    rw [if_pos htle, if_pos hfd]
    exact ⟨_, rfl, rfl, rfl⟩

/-- Witness for C6: the setting ("64", kB) parses to 65536 bytes, i.e.
0 MiB, so the single emitted validation is Critical. -/
theorem c6_check_maintenance_work_mem_witness :
    ∃ v, VacuumSettingsCheck.check_maintenance_work_mem
      (fun n => if n = "maintenance_work_mem" then some ("64", some "kB") else none) = [v] ∧
      v.name = "maintenance_work_mem" ∧ v.status = CheckStatus.Critical := by
  obtain ⟨v, h1, h2, h3⟩ := c6_check_maintenance_work_mem
    (fun n => if n = "maintenance_work_mem" then some ("64", some "kB") else none)
    "64" (some "kB") 65536 (by decide) (by decide)
  exact ⟨v, h1, h2, by rw [h3]; decide⟩

/-- C8: the bloat check emits a validation for exactly the tables with
bloat percentage above 60 whose last autovacuum or last autoanalyze is
stale, where stale means absent or strictly before five days prior to the
evaluation time; every emitted validation has severity Warn. -/
theorem c8_table_bloat (humanize : Int → String) (pctFmt : ℚ → String)
    (showDate : Int → String) (now : Int) (data : List TableBloatInfo) :
    TableBloatCheck.runValidations humanize pctFmt showDate now data =
      (data.filter fun info =>
        info.bloat_percentage > 60 ∧
          (TableBloatCheck.isStale (now - 5 * 86400) info.last_autovacuum ∨
           TableBloatCheck.isStale (now - 5 * 86400) info.last_autoanalyze)).map
        (TableBloatCheck.bloatValidation humanize pctFmt showDate) ∧
    (∀ cutoff o, TableBloatCheck.isStale cutoff o = true ↔
      (o = none ∨ ∃ t, o = some t ∧ t < cutoff)) ∧
    (∀ v ∈ TableBloatCheck.runValidations humanize pctFmt showDate now data,
      v.status = CheckStatus.Warn) := by
  have h1 : TableBloatCheck.runValidations humanize pctFmt showDate now data =
      (data.filter fun info =>
        info.bloat_percentage > 60 ∧
          (TableBloatCheck.isStale (now - 5 * 86400) info.last_autovacuum ∨
           TableBloatCheck.isStale (now - 5 * 86400) info.last_autoanalyze)).map
        (TableBloatCheck.bloatValidation humanize pctFmt showDate) := by
    induction data with
    | nil => rfl
    | cons info rest ih =>
      simp only [TableBloatCheck.runValidations] at ih ⊢
      by_cases hcond : info.bloat_percentage > 60 ∧
          (TableBloatCheck.isStale (now - 5 * 86400) info.last_autovacuum ∨
           TableBloatCheck.isStale (now - 5 * 86400) info.last_autoanalyze)
      · rw [List.filterMap_cons_some (by rw [if_pos hcond]),
          List.filter_cons_of_pos (by simpa using hcond), List.map_cons, ih]
      · rw [List.filterMap_cons_none (by rw [if_neg hcond]),
          List.filter_cons_of_neg (by simpa using hcond), ih]
  refine ⟨h1, ?_, ?_⟩
  · intro cutoff o
    cases o <;> simp [TableBloatCheck.isStale]
  · intro v hv
    rw [h1] at hv
    obtain ⟨info, _, rfl⟩ := List.mem_map.mp hv
    rfl

/-- Witness for C8: a table with 75 percent bloat never autovacuumed is
flagged Warn; the same percentage freshly maintained is not flagged; a 40
percent table is never flagged. -/
theorem c8_table_bloat_witness :
    TableBloatCheck.runValidations (fun _ => "B") (fun _ => "P") (fun _ => "D") 1000000
      [⟨"public", "t", 100, 80, 75, none, none⟩] =
      [TableBloatCheck.bloatValidation (fun _ => "B") (fun _ => "P") (fun _ => "D")
        ⟨"public", "t", 100, 80, 75, none, none⟩] ∧
    (TableBloatCheck.bloatValidation (fun _ => "B") (fun _ => "P") (fun _ => "D")
      ⟨"public", "t", 100, 80, 75, none, none⟩).status = CheckStatus.Warn ∧
    TableBloatCheck.runValidations (fun _ => "B") (fun _ => "P") (fun _ => "D") 1000000
      [⟨"public", "t", 100, 80, 75, some 999999, some 999999⟩] = [] ∧
    TableBloatCheck.runValidations (fun _ => "B") (fun _ => "P") (fun _ => "D") 1000000
      [⟨"public", "t", 100, 80, 40, none, none⟩] = [] := by
  have h := c8_table_bloat (fun _ => "B") (fun _ => "P") (fun _ => "D") 1000000
    [⟨"public", "t", 100, 80, 75, none, none⟩]
  refine ⟨?_, ?_, ?_, ?_⟩
  · rw [h.1]
    rfl
  · exact h.2.2 _ (by rw [h.1]; exact List.mem_singleton.mpr rfl)
  · rw [(c8_table_bloat (fun _ => "B") (fun _ => "P") (fun _ => "D") 1000000
      [⟨"public", "t", 100, 80, 75, some 999999, some 999999⟩]).1]
    rfl
  · rw [(c8_table_bloat (fun _ => "B") (fun _ => "P") (fun _ => "D") 1000000
      [⟨"public", "t", 100, 80, 40, none, none⟩]).1]
    rfl

lemma check_autovacuum_scale_factors_names (pf : String → Option ℚ) (sq : ℚ → String)
    (s : VacuumSettingsCheck.Settings) :
    ∀ v ∈ VacuumSettingsCheck.check_autovacuum_scale_factors pf sq s,
      v.name = "autovacuum_analyze_scale_factor" ∨
      v.name = "autovacuum_vacuum_scale_factor" := by
  intro v hv
  unfold VacuumSettingsCheck.check_autovacuum_scale_factors at hv
  rw [List.mem_append] at hv
  rcases hv with hv | hv <;>
  · repeat' split at hv
    all_goals simp_all

lemma check_autovacuum_workers_names (s : VacuumSettingsCheck.Settings) :
    ∀ v ∈ VacuumSettingsCheck.check_autovacuum_workers s,
      v.name = "autovacuum_max_workers" := by
  intro v hv
  unfold VacuumSettingsCheck.check_autovacuum_workers at hv
  repeat' split at hv
  all_goals simp_all

lemma check_maintenance_work_mem_names (s : VacuumSettingsCheck.Settings) :
    ∀ v ∈ VacuumSettingsCheck.check_maintenance_work_mem s,
      v.name = "maintenance_work_mem" := by
  intro v hv
  unfold VacuumSettingsCheck.check_maintenance_work_mem at hv
  repeat' split at hv
  all_goals (try (dsimp only at hv); try (split_ifs at hv))
  all_goals simp_all

lemma check_vacuum_cost_settings_names (s : VacuumSettingsCheck.Settings) :
    ∀ v ∈ VacuumSettingsCheck.check_vacuum_cost_settings s,
      v.name = "vacuum_cost_delay" ∨ v.name = "vacuum_cost_limit" := by
  intro v hv
  unfold VacuumSettingsCheck.check_vacuum_cost_settings at hv
  rw [List.mem_append] at hv
  rcases hv with hv | hv <;>
  · repeat' split at hv
    all_goals simp_all

lemma check_work_mem_names (s : VacuumSettingsCheck.Settings) :
    ∀ v ∈ VacuumSettingsCheck.check_work_mem s, v.name = "work_mem" := by
  intro v hv
  unfold VacuumSettingsCheck.check_work_mem at hv
  repeat' split at hv
  all_goals (try (dsimp only at hv); try (split_ifs at hv))
  all_goals simp_all

/-- C9: a monitored setting that is absent from the mapping, or whose value
fails its parse, contributes no validation and no error; and the
vacuum-settings validator returns exactly the single fallback Ok validation
iff the five setting evaluators all produced nothing - in particular when
no monitored setting is present at all. -/
theorem c9_validate_settings (pf : String → Option ℚ) (sq : ℚ → String)
    (s : VacuumSettingsCheck.Settings) :
    (VacuumSettingsCheck.validate_settings pf sq s =
        [VacuumSettingsCheck.fallbackValidation] ↔
      VacuumSettingsCheck.check_autovacuum_scale_factors pf sq s = [] ∧
      VacuumSettingsCheck.check_autovacuum_workers s = [] ∧
      VacuumSettingsCheck.check_maintenance_work_mem s = [] ∧
      VacuumSettingsCheck.check_vacuum_cost_settings s = [] ∧
      VacuumSettingsCheck.check_work_mem s = []) ∧
    ((s "autovacuum_analyze_scale_factor" = none ∨
        ∃ str u, s "autovacuum_analyze_scale_factor" = some (str, u) ∧ pf str = none) →
     (s "autovacuum_vacuum_scale_factor" = none ∨
        ∃ str u, s "autovacuum_vacuum_scale_factor" = some (str, u) ∧ pf str = none) →
      VacuumSettingsCheck.check_autovacuum_scale_factors pf sq s = []) ∧
    ((s "autovacuum_max_workers" = none ∨
        ∃ str u, s "autovacuum_max_workers" = some (str, u) ∧
          VacuumSettingsCheck.parse_setting_value str u = none) →
      VacuumSettingsCheck.check_autovacuum_workers s = []) ∧
    ((s "maintenance_work_mem" = none ∨
        ∃ str u, s "maintenance_work_mem" = some (str, u) ∧
          VacuumSettingsCheck.parse_setting_value str u = none) →
      VacuumSettingsCheck.check_maintenance_work_mem s = []) ∧
    ((s "vacuum_cost_delay" = none ∨
        ∃ str u, s "vacuum_cost_delay" = some (str, u) ∧
          VacuumSettingsCheck.parse_setting_value str u = none) →
     (s "vacuum_cost_limit" = none ∨
        ∃ str u, s "vacuum_cost_limit" = some (str, u) ∧
          VacuumSettingsCheck.parse_setting_value str u = none) →
      VacuumSettingsCheck.check_vacuum_cost_settings s = []) ∧
    ((s "work_mem" = none ∨
        ∃ str u, s "work_mem" = some (str, u) ∧
          VacuumSettingsCheck.parse_setting_value str u = none) →
      VacuumSettingsCheck.check_work_mem s = []) ∧
    ((∀ n, s n = none) →
      VacuumSettingsCheck.validate_settings pf sq s =
        [VacuumSettingsCheck.fallbackValidation]) := by
  refine ⟨?_, ?_, ?_, ?_, ?_, ?_, ?_⟩
  · constructor
    · intro heq
      by_cases hemp :
          (VacuumSettingsCheck.check_autovacuum_scale_factors pf sq s ++
           VacuumSettingsCheck.check_autovacuum_workers s ++
           VacuumSettingsCheck.check_maintenance_work_mem s ++
           VacuumSettingsCheck.check_vacuum_cost_settings s ++
           VacuumSettingsCheck.check_work_mem s) = []
      · simp only [List.append_eq_nil] at hemp
        exact ⟨hemp.1.1.1.1, hemp.1.1.1.2, hemp.1.1.2, hemp.1.2, hemp.2⟩
      · exfalso
        have hval : VacuumSettingsCheck.validate_settings pf sq s =
            VacuumSettingsCheck.check_autovacuum_scale_factors pf sq s ++
            VacuumSettingsCheck.check_autovacuum_workers s ++
            VacuumSettingsCheck.check_maintenance_work_mem s ++
            VacuumSettingsCheck.check_vacuum_cost_settings s ++
            VacuumSettingsCheck.check_work_mem s := by
          unfold VacuumSettingsCheck.validate_settings
          rw [if_neg]
          simpa [List.isEmpty_iff] using hemp
        rw [hval] at heq
        have hmem : VacuumSettingsCheck.fallbackValidation ∈
            VacuumSettingsCheck.check_autovacuum_scale_factors pf sq s ++
            VacuumSettingsCheck.check_autovacuum_workers s ++
            VacuumSettingsCheck.check_maintenance_work_mem s ++
            VacuumSettingsCheck.check_vacuum_cost_settings s ++
            VacuumSettingsCheck.check_work_mem s := by
          rw [heq]
          exact List.mem_singleton.mpr rfl
        simp only [List.mem_append] at hmem
        rcases hmem with ((((hm | hm) | hm) | hm) | hm)
        · rcases check_autovacuum_scale_factors_names pf sq s _ hm with hn | hn <;>
            exact absurd hn (by decide)
        · exact absurd (check_autovacuum_workers_names s _ hm) (by decide)
        · exact absurd (check_maintenance_work_mem_names s _ hm) (by decide)
        · rcases check_vacuum_cost_settings_names s _ hm with hn | hn <;>
            exact absurd hn (by decide)
        · exact absurd (check_work_mem_names s _ hm) (by decide)
    · intro ⟨h1, h2, h3, h4, h5⟩
      simp [VacuumSettingsCheck.validate_settings, h1, h2, h3, h4, h5]
  · intro h1 h2
    rcases h1 with h1 | ⟨str1, u1, hsu1, hp1⟩ <;>
      rcases h2 with h2 | ⟨str2, u2, hsu2, hp2⟩ <;>
      simp [VacuumSettingsCheck.check_autovacuum_scale_factors, *]
  · intro h
    rcases h with h | ⟨str, u, hsu, hp⟩ <;>
      simp [VacuumSettingsCheck.check_autovacuum_workers, *]
  · intro h
    rcases h with h | ⟨str, u, hsu, hp⟩ <;>
      simp [VacuumSettingsCheck.check_maintenance_work_mem, *]
  · intro h1 h2
    rcases h1 with h1 | ⟨str1, u1, hsu1, hp1⟩ <;>
      rcases h2 with h2 | ⟨str2, u2, hsu2, hp2⟩ <;>
      simp [VacuumSettingsCheck.check_vacuum_cost_settings, *]
  · intro h
    rcases h with h | ⟨str, u, hsu, hp⟩ <;>
      simp [VacuumSettingsCheck.check_work_mem, *]
  · intro h
    simp [VacuumSettingsCheck.validate_settings,
      VacuumSettingsCheck.check_autovacuum_scale_factors,
      VacuumSettingsCheck.check_autovacuum_workers,
      VacuumSettingsCheck.check_maintenance_work_mem,
      VacuumSettingsCheck.check_vacuum_cost_settings,
      VacuumSettingsCheck.check_work_mem, h]

/-- Witness for C9: the empty settings mapping produces exactly the
fallback Ok validation, and every individual evaluator skips silently on
it, including on a present but non-numeric value. -/
theorem c9_validate_settings_witness :
    VacuumSettingsCheck.validate_settings (fun _ => none) (fun _ => "Q")
      (fun _ => none) = [VacuumSettingsCheck.fallbackValidation] ∧
    VacuumSettingsCheck.check_autovacuum_workers (fun _ => none) = [] ∧
    VacuumSettingsCheck.check_maintenance_work_mem
      (fun n => if n = "maintenance_work_mem" then some ("oops", none) else none) = [] := by
  refine ⟨?_, ?_, ?_⟩
  · exact (c9_validate_settings (fun _ => none) (fun _ => "Q")
      (fun _ => none)).2.2.2.2.2.2 (fun _ => rfl)
  · exact (c9_validate_settings (fun _ => none) (fun _ => "Q")
      (fun _ => none)).2.2.1 (Or.inl rfl)
  · exact (c9_validate_settings (fun _ => none) (fun _ => "Q")
      (fun n => if n = "maintenance_work_mem" then some ("oops", none) else none)).2.2.2.1
      (Or.inr ⟨"oops", none, by decide, by decide⟩)
